import Mathlib

/-!
Verification of the pop-render rendering pipeline framework.

This file shallowly embeds the parts of the pop-render service that the
checked properties are about: the configuration model and per-pipeline
validators (`pipelines/pop_poster.py`, `pipelines/pencil_sketch.py`,
`pipelines/between_lines.py`), the pipeline render functions, the tiered
`Upscaler` (`upscaler.py`) and the job orchestrator `process_render`
(`service/pipelines/__init__.py`).

Conventions of the embedding:
* Python floats are modelled exactly as rationals (`ℚ`); the float literal
  `np.pi` is modelled by its exact IEEE-754 double value `npPi`.
* Python dicts of configuration values are association lists of `CVal`
  (int / float / string), mirroring the JSONB `algorithm_config` values.
* Raised Python exceptions are modelled with `Except`: `ValueError` raised
  by `_validate_config` becomes a structured `PErr`, and library
  `TypeError`s raised mid-render when a non-numeric value reaches a
  numeric library call become `PErr.typeError`.
* Pixel rasters are `Nat → Nat → Pix` functions together with explicit
  width/height; external image library primitives (PIL, scipy, OpenCV,
  sklearn) are modelled in the `Lib` namespace as deterministic,
  shape-respecting functions that follow the libraries' documented
  contracts; each carries a doc comment saying what it models.
-/

namespace PopRender

/-- A configuration value as stored in a pipeline's `algorithm_config`
dict: a Python int, float (modelled exactly as a rational) or string. -/
inductive CVal where
  | vInt : Int → CVal
  | vFloat : ℚ → CVal
  | vStr : String → CVal
deriving DecidableEq

/-- A configuration dict: association list from parameter name to value.
Python dict keys are unique; the embedding uses first-match lookup. -/
abbrev Config := List (String × CVal)

/-- First-match lookup in a configuration dict (`cfg[k]` / `cfg.get(k)`). -/
def lookupCfg : Config → String → Option CVal
  | [], _ => none
  | (k, v) :: rest, key => if k = key then some v else lookupCfg rest key

/-- The key set of a configuration dict (`config.keys()`). -/
def keysOf (cfg : Config) : List String := cfg.map Prod.fst

/-- `config.get(key, default)` on a Python dict. -/
def cfgGet (cfg : Config) (key : String) (dflt : CVal) : CVal :=
  match lookupCfg cfg key with
  | some v => v
  | none => dflt

/-- Lookup in the merged dict `{**defaults, **overrides}` (override wins).
The fallback `.vInt 0` is unreachable for keys present in the defaults. -/
def mget (overrides defaults : Config) (key : String) : CVal :=
  match lookupCfg overrides key with
  | some v => v
  | none => cfgGet defaults key (.vInt 0)

/-- The keys of `cfg` that are not in the allow-list: models
`set(self.config.keys()) - allowed_params`. -/
def invalidKeys (cfg : Config) (allowed : List String) : List String :=
  (keysOf cfg).filter (fun k => ¬ allowed.contains k)

/-- Numeric coercion performed by library calls that require a number;
`none` models the `TypeError` a string argument raises there. -/
def asNum : CVal → Option ℚ
  | .vInt n => some (n : ℚ)
  | .vFloat q => some q
  | .vStr _ => none

/-- Integer coercion performed by library calls that require an int. -/
def asInt : CVal → Option Int
  | .vInt n => some n
  | .vFloat _ => none
  | .vStr _ => none

/-- Errors of the pipeline framework.  `configError` is the `ValueError`
raised by `_validate_config` for unknown keys (it carries the offending
keys and the allow-list, exactly the data interpolated into the Python
message); `rangeError` is the `ValueError` for an out-of-range value;
`typeError` models a library `TypeError` raised mid-render. -/
inductive PErr where
  | configError : List String → List String → PErr
  | rangeError : String → PErr
  | typeError : String → PErr
deriving DecidableEq

/-- An RGBA pixel; channel values are rationals (Python float/uint8).
Grayscale (`L`) images store their value in all three color channels. -/
structure Pix where
  r : ℚ
  g : ℚ
  b : ℚ
  a : ℚ
deriving DecidableEq

/-- PIL pixel-channel modes that flow through the pipelines. -/
inductive PMode where
  | L | RGB | RGBA
deriving DecidableEq

/-- An in-memory raster image: mode, width, height and a total pixel
function (indices outside the raster are never observed). -/
structure Img where
  mode : PMode
  w : Nat
  h : Nat
  px : Nat → Nat → Pix

/-- The exact value of the IEEE-754 double `math.pi` / `np.pi`
(`884279719003555 / 2^48`), the constant the Python code computes with. -/
def npPi : ℚ := 884279719003555 / 281474976710656

/-- Clamp to `[0, 255]` and truncate: models `np.clip(x, 0, 255).astype(np.uint8)`. -/
def byteClamp (q : ℚ) : ℚ := ((⌊max 0 (min 255 q)⌋ : Int) : ℚ)

/-- Python `int(x)` on a float: truncation toward zero. -/
def pyInt (q : ℚ) : Int := if 0 ≤ q then ⌊q⌋ else -⌊-q⌋

namespace Lib

/-- Clamped pixel access used by the neighbourhood-based library models
(models the `reflect` boundary handling at distance one). -/
def pxC (img : Img) (x y : Int) : Pix :=
  img.px (min x.toNat (img.w - 1)) (min y.toNat (img.h - 1))

/-- Models `PIL` flattening of an RGBA image against a white background
(`Image.new('RGB', size, (255,255,255)); rgb.paste(img, mask=alpha)`):
per-channel `c' = (c*a + 255*(255-a)) / 255`, output mode RGB. -/
def pasteOnWhite (img : Img) : Img :=
  { img with
    mode := .RGB
    px := fun x y =>
      let p := img.px x y
      { r := (p.r * p.a + 255 * (255 - p.a)) / 255
        g := (p.g * p.a + 255 * (255 - p.a)) / 255
        b := (p.b * p.a + 255 * (255 - p.a)) / 255
        a := 255 } }

/-- Models `PIL.Image.convert('L')`: identity on `L` images, otherwise the
documented luminance formula `L = (299 R + 587 G + 114 B) // 1000`. -/
def convertL (img : Img) : Img :=
  match img.mode with
  | .L => img
  | _ =>
    { img with
      mode := .L
      px := fun x y =>
        let p := img.px x y
        let v : ℚ := ((⌊(299 * p.r + 587 * p.g + 114 * p.b) / 1000⌋ : Int) : ℚ)
        { r := v, g := v, b := v, a := 255 } }

/-- Models `PIL.Image.convert('RGB')`: identity on RGB, replicates the
gray value on `L`, drops the alpha channel on RGBA. -/
def convertRGB (img : Img) : Img :=
  match img.mode with
  | .RGB => img
  | _ =>
    { img with
      mode := .RGB
      px := fun x y =>
        let p := img.px x y
        { r := p.r, g := p.g, b := p.b, a := 255 } }

/-- Models `PIL.Image.resize((tw, th), LANCZOS)`: the output always has
exactly the requested dimensions; the pixel content is modelled by
coordinate resampling (the Lanczos kernel itself is not needed by any
checked property). -/
def resize (img : Img) (tw th : Nat) : Img :=
  { mode := img.mode
    w := tw
    h := th
    px := fun x y => img.px (x * img.w / tw) (y * img.h / th) }

/-- Models one pass of `cv2.dnn_superres` `upsample` at integer scale `s`:
dimensions are multiplied by `s`; content modelled by resampling. -/
def srUpsample (s : Nat) (img : Img) : Img :=
  { img with
    w := img.w * s
    h := img.h * s
    px := fun x y => img.px (x / s) (y / s) }

/-- Models `scipy.ndimage.gaussian_filter(img, sigma, mode='reflect')` on a
float array: a deterministic shape-preserving smoothing that mixes each
pixel with its 4-neighbourhood by a sigma-dependent weight.  Output values
are floats (not clamped; callers clip where the Python code does). -/
def gaussianFilter (sigma : ℚ) (img : Img) : Img :=
  let wgt := sigma / (sigma + 1)
  { img with
    px := fun x y =>
      let c := img.px x y
      let avg := fun (f : Pix → ℚ) =>
        (f (pxC img ((x : Int) - 1) y) + f (pxC img ((x : Int) + 1) y) +
         f (pxC img x ((y : Int) - 1)) + f (pxC img x ((y : Int) + 1))) / 4
      { r := (1 - wgt) * c.r + wgt * avg Pix.r
        g := (1 - wgt) * c.g + wgt * avg Pix.g
        b := (1 - wgt) * c.b + wgt * avg Pix.b
        a := c.a } }

/-- Models `scipy.ndimage.gaussian_filter1d(img, sigma, axis, mode='reflect')`:
the same smoothing model restricted to one axis (`horizontal = true` is
`axis=1`). -/
def gaussianFilter1d (sigma : ℚ) (horizontal : Bool) (img : Img) : Img :=
  let wgt := sigma / (sigma + 1)
  { img with
    px := fun x y =>
      let c := img.px x y
      let n1 := if horizontal then pxC img ((x : Int) - 1) y else pxC img x ((y : Int) - 1)
      let n2 := if horizontal then pxC img ((x : Int) + 1) y else pxC img x ((y : Int) + 1)
      { r := (1 - wgt) * c.r + wgt * ((n1.r + n2.r) / 2)
        g := (1 - wgt) * c.g + wgt * ((n1.g + n2.g) / 2)
        b := (1 - wgt) * c.b + wgt * ((n1.b + n2.b) / 2)
        a := c.a } }

/-- Models `scipy.ndimage.sobel(img, axis=1)` (horizontal gradient) as a
central difference on the gray channel. -/
def gradX (img : Img) : Nat → Nat → ℚ :=
  fun x y => (pxC img ((x : Int) + 1) y).r - (pxC img ((x : Int) - 1) y).r

/-- Models `scipy.ndimage.sobel(img, axis=0)` (vertical gradient). -/
def gradY (img : Img) : Nat → Nat → ℚ :=
  fun x y => (pxC img x ((y : Int) + 1)).r - (pxC img x ((y : Int) - 1)).r

/-- Models the gradient magnitude `np.sqrt(gx**2 + gy**2)` by the squared
magnitude: the true value is irrational, and the pipelines only compare
the magnitude against a configured threshold, so a squared model keeps the
embedding exact over `ℚ` while preserving determinism and shape. -/
def magnitudeSq (gx gy : Nat → Nat → ℚ) : Nat → Nat → ℚ :=
  fun x y => gx x y ^ 2 + gy x y ^ 2

/-- Models `numpy.arctan2(y, x)` at octant precision: a deterministic
total function returning a representative angle in `(-npPi, npPi]` for the
octant of `(x, y)`.  Downstream code only quantizes directions into
`npPi/4`-wide sectors, so octant precision is the relevant behaviour. -/
def atan2M (y x : ℚ) : ℚ :=
  if 0 < x ∧ 2 * |y| ≤ |x| then 0
  else if 0 < y ∧ 2 * |x| ≤ |y| then npPi / 2
  else if x < 0 ∧ 2 * |y| ≤ |x| then npPi
  else if y < 0 ∧ 2 * |x| ≤ |y| then -(npPi / 2)
  else if 0 < x ∧ 0 < y then npPi / 4
  else if x < 0 ∧ 0 < y then 3 * npPi / 4
  else if x < 0 ∧ y < 0 then -(3 * npPi / 4)
  else if 0 < x ∧ y < 0 then -(npPi / 4)
  else 0

/-- Models `sklearn.cluster.KMeans(n_clusters=k, random_state=seed,
n_init=10, max_iter=300).fit` followed by replacing each pixel with its
cluster centre.  With a fixed `random_state` the sklearn computation is
deterministic (documented); the model quantizes each channel into `k`
levels, which is deterministic, shape-preserving and mode-preserving.
The seed parameter is kept in the signature (it selects the clustering in
sklearn) though the quantization model does not depend on it. -/
def kmeansQuantize (k _seed : Int) (img : Img) : Img :=
  let q := fun v : ℚ => byteClamp ((((pyInt (v * k / 256)) : ℚ)) * (255 / ((k : ℚ) - 1)))
  { img with
    px := fun x y =>
      let p := img.px x y
      { r := q p.r, g := q p.g, b := q p.b, a := 255 } }

/-- Models `cv2.Canny(gray, low, high)`: a boolean edge mask of the same
spatial dimensions; an edge is modelled where the gradient magnitude
reaches the high threshold (hysteresis chaining from the low threshold is
not needed by any checked property; both thresholds must be numeric,
which is what the callers' type obligation captures). -/
def canny (low high : ℚ) (img : Img) : Nat → Nat → Bool :=
  fun x y =>
    decide (high ≤ |gradX img x y| + |gradY img x y| ∨
            (low ≤ |gradX img x y| + |gradY img x y| ∧ False))

/-- Models `PIL.ImageFilter.UnsharpMask(radius, percent, threshold)`:
adds `percent/100` of the difference to a blurred copy wherever that
difference reaches the threshold. -/
def unsharpMask (radius percent threshold : ℚ) (img : Img) : Img :=
  let blurred := gaussianFilter radius img
  let sh := fun (v bv : ℚ) =>
    if threshold ≤ |v - bv| then byteClamp (v + percent / 100 * (v - bv)) else v
  { img with
    px := fun x y =>
      let p := img.px x y
      let bp := blurred.px x y
      { r := sh p.r bp.r, g := sh p.g bp.g, b := sh p.b bp.b, a := p.a } }

/-- Models `PIL.ImageEnhance.Contrast(image).enhance(factor)`: moves each
channel away from the mid gray by `factor` (the PIL implementation uses
the image mean; the model uses the fixed midpoint 128). -/
def contrastEnhance (factor : ℚ) (img : Img) : Img :=
  let c := fun v : ℚ => byteClamp (128 + factor * (v - 128))
  { img with
    px := fun x y =>
      let p := img.px x y
      { r := c p.r, g := c p.g, b := c p.b, a := p.a } }

end Lib

/-! ## Direction binning (BetweenLinesPipeline._directional_motion_blur) -/

/-- `direction_step = 2 * np.pi / num_directions` with 8 directions. -/
def directionStep : ℚ := 2 * npPi / 8

/-- The direction-bin membership test of
`BetweenLinesPipeline._directional_motion_blur`: bin `i` has centre
`angle = i * direction_step`, `angle_min = angle - direction_step/2`,
`angle_max = angle + direction_step/2`; for `i = 0` the mask is
`(directions >= angle_min) | (directions < angle_max)` (the wrap-around
special case), otherwise `(directions >= angle_min) & (directions < angle_max)`. -/
def binMask : Nat → ℚ → Prop
  | 0, d =>
      0 * directionStep - directionStep / 2 ≤ d ∨
      d < 0 * directionStep + directionStep / 2
  | (m + 1), d =>
      ((m : ℚ) + 1) * directionStep - directionStep / 2 ≤ d ∧
      d < ((m : ℚ) + 1) * directionStep + directionStep / 2

instance binMaskDecidable : (i : Nat) → (d : ℚ) → Decidable (binMask i d)
  | 0, d =>
      inferInstanceAs (Decidable (0 * directionStep - directionStep / 2 ≤ d ∨
        d < 0 * directionStep + directionStep / 2))
  | (m + 1), d =>
      inferInstanceAs (Decidable (((m : ℚ) + 1) * directionStep - directionStep / 2 ≤ d ∧
        d < ((m : ℚ) + 1) * directionStep + directionStep / 2))

/-- The blur axis chosen for bin `i`: the code compares
`abs(cos(angle)) > abs(sin(angle))` at the bin centre angle, which holds
for the horizontal bins 0 and 4 and fails for the vertical and (up to the
1-ulp rounding of the float diagonal values) the diagonal bins. -/
def horizAxis (i : Nat) : Bool := i == 0 || i == 4

/-- The per-pixel content of `_directional_motion_blur`: each of the 8
direction bins whose mask contains the pixel (and whose gradient
magnitude reaches the threshold) contributes the directionally blurred
value; contributions are averaged; pixels in no bin keep their original
value; the result is clipped to `uint8`. -/
def directionalMotionBlur (gray : Img) (directions magnitude : Nat → Nat → ℚ)
    (blurLength : Int) (edgeThreshold : ℚ) : Img :=
  let blurredH := Lib.gaussianFilter1d ((blurLength : ℚ) / 3) true gray
  let blurredV := Lib.gaussianFilter1d ((blurLength : ℚ) / 3) false gray
  { gray with
    px := fun x y =>
      let d := directions x y
      let hits := (List.range 8).filter
        (fun i => decide (binMask i d) && decide (edgeThreshold ≤ magnitude x y))
      if hits = [] then gray.px x y
      else
        let vals := hits.map
          (fun i => ((if horizAxis i then blurredH else blurredV).px x y).r)
        let v := byteClamp (vals.sum / (hits.length : ℚ))
        { r := v, g := v, b := v, a := 255 } }

/-- `BetweenLinesPipeline._posterize`: bin edges `np.linspace(0, 256,
num_levels + 1)`, `np.digitize` against `bins[1:]`, then the bin index is
mapped onto `np.linspace(0, 255, num_levels)` and clipped to `uint8`. -/
def posterizeL (numLevels : Int) (img : Img) : Img :=
  let n := numLevels.toNat
  let q := fun v : ℚ =>
    let idx := ((List.range n).filter (fun j => (256 * ((j : ℚ) + 1) / (n : ℚ)) ≤ v)).length
    byteClamp (255 * (idx : ℚ) / ((n : ℚ) - 1))
  { img with
    px := fun x y =>
      let p := img.px x y
      { r := q p.r, g := q p.g, b := q p.b, a := 255 } }

/-! ## PopPosterPipeline (`pipelines/pop_poster.py`) -/

namespace PopPoster

/-- The allow-list of `PopPosterPipeline._validate_config`. -/
def allowedParams : List String :=
  ["k", "seed", "canny_low", "canny_high",
   "sharpen_radius", "sharpen_percent", "sharpen_threshold"]

/-- `PopPosterPipeline.get_default_config`. -/
def defaultConfig : Config :=
  [("k", .vInt 8), ("seed", .vInt 42), ("canny_low", .vInt 50),
   ("canny_high", .vInt 150), ("sharpen_radius", .vInt 2),
   ("sharpen_percent", .vInt 150), ("sharpen_threshold", .vInt 3)]

/-- `PopPosterPipeline._validate_config`: rejects keys outside the
allow-list, then requires `k` (default 8) to be an int in `[2, 256]`. -/
def validateConfig (cfg : Config) : Except PErr Unit :=
  let invalid := invalidKeys cfg allowedParams
  if invalid ≠ [] then .error (.configError invalid allowedParams)
  else
    match cfgGet cfg "k" (.vInt 8) with
    | .vInt n =>
        if n < 2 ∨ 256 < n then
          .error (.rangeError "k must be integer between 2 and 256")
        else .ok ()
    | _ => .error (.rangeError "k must be integer between 2 and 256")

/-- Mode normalization at the top of `PopPosterPipeline.render`:
RGBA is flattened against white, any other non-RGB mode is converted. -/
def normalizeRGB (image : Img) : Img :=
  match image.mode with
  | .RGBA => Lib.pasteOnWhite image
  | .RGB => image
  | .L => Lib.convertRGB image

/-- `PopPosterPipeline.render`: K-means posterization, Canny edges,
edge compositing, unsharp-mask sharpening, with the run-time
configuration `{**defaults, **overrides}`.  Configuration values that
reach a numeric library argument as non-numbers raise there (`TypeError`),
which the embedding models as `PErr.typeError`. -/
def render (cfg : Config) (image : Img) : Except PErr Img :=
  let image := normalizeRGB image
  match asInt (mget cfg defaultConfig "k"), asInt (mget cfg defaultConfig "seed") with
  | some k, some seed =>
    let posterized := Lib.kmeansQuantize k seed image
    match asNum (mget cfg defaultConfig "canny_low"),
          asNum (mget cfg defaultConfig "canny_high") with
    | some low, some high =>
      let edges := Lib.canny low high image
      let composited : Img :=
        { posterized with
          px := fun x y =>
            if edges x y then { r := 0, g := 0, b := 0, a := 255 }
            else posterized.px x y }
      match asNum (mget cfg defaultConfig "sharpen_radius"),
            asNum (mget cfg defaultConfig "sharpen_percent"),
            asNum (mget cfg defaultConfig "sharpen_threshold") with
      | some radius, some percent, some threshold =>
          .ok (Lib.unsharpMask radius percent threshold composited)
      | _, _, _ => .error (.typeError "UnsharpMask arguments must be numeric")
    | _, _ => .error (.typeError "Canny thresholds must be numeric")
  | _, _ => .error (.typeError "KMeans arguments must be integers")

end PopPoster

/-! ## PencilSketchPipeline (`pipelines/pencil_sketch.py`) -/

namespace PencilSketch

/-- The allow-list of `PencilSketchPipeline._validate_config`. -/
def allowedParams : List String := ["sigma", "contrast_factor", "output_mode"]

/-- `PencilSketchPipeline.get_default_config`. -/
def defaultConfig : Config :=
  [("sigma", .vInt 21), ("contrast_factor", .vFloat (13 / 10)),
   ("output_mode", .vStr "L")]

/-- `PencilSketchPipeline._validate_config`: rejects unknown keys, then
requires `sigma` (default 21) to be a positive number and
`contrast_factor` (default 1.3) to be a positive number. -/
def validateConfig (cfg : Config) : Except PErr Unit :=
  let invalid := invalidKeys cfg allowedParams
  if invalid ≠ [] then .error (.configError invalid allowedParams)
  else
    match asNum (cfgGet cfg "sigma" (.vInt 21)) with
    | some sigma =>
        if sigma ≤ 0 then .error (.rangeError "sigma must be positive number")
        else
          match asNum (cfgGet cfg "contrast_factor" (.vFloat (13 / 10))) with
          | some contrast =>
              if contrast ≤ 0 then .error (.rangeError "contrast_factor must be positive")
              else .ok ()
          | none => .error (.rangeError "contrast_factor must be positive")
    | none => .error (.rangeError "sigma must be positive number")

/-- `PencilSketchPipeline.render`: flatten RGBA against white, grayscale,
invert, Gaussian blur, color-dodge blend, contrast adjustment, optional
RGB output conversion. -/
def render (cfg : Config) (image : Img) : Except PErr Img :=
  let image := match image.mode with
    | .RGBA => Lib.pasteOnWhite image
    | _ => image
  let gray := Lib.convertL image
  let inverted : Img :=
    { gray with
      px := fun x y =>
        let v := 255 - (gray.px x y).r
        { r := v, g := v, b := v, a := 255 } }
  match asNum (mget cfg defaultConfig "sigma") with
  | some sigma =>
    let blurred := Lib.gaussianFilter sigma inverted
    let blurredByte : Img :=
      { blurred with
        px := fun x y =>
          let v := byteClamp (blurred.px x y).r
          { r := v, g := v, b := v, a := 255 } }
    let sketch : Img :=
      { gray with
        px := fun x y =>
          let base := (gray.px x y).r
          let denom := 255 - (blurredByte.px x y).r
          let v := if 0 < denom then byteClamp (base / denom * 255) else 255
          { r := v, g := v, b := v, a := 255 } }
    match asNum (mget cfg defaultConfig "contrast_factor") with
    | some factor =>
      let sketch := Lib.contrastEnhance factor sketch
      if mget cfg defaultConfig "output_mode" = .vStr "RGB" ∧ sketch.mode = .L then
        .ok (Lib.convertRGB sketch)
      else .ok sketch
    | none => .error (.typeError "contrast factor must be numeric")
  | none => .error (.typeError "gaussian_filter sigma must be numeric")

end PencilSketch

/-! ## BetweenLinesPipeline (`pipelines/between_lines.py`) -/

namespace BetweenLines

/-- The allow-list of `BetweenLinesPipeline._validate_config`. -/
def allowedParams : List String := ["blur_length", "num_levels", "edge_threshold"]

/-- `BetweenLinesPipeline.get_default_config`. -/
def defaultConfig : Config :=
  [("blur_length", .vInt 15), ("num_levels", .vInt 4), ("edge_threshold", .vInt 30)]

/-- `BetweenLinesPipeline._validate_config`: rejects unknown keys, then
requires `blur_length` (default 15) to be an int `≥ 1` and `num_levels`
(default 4) to be an int in `[2, 256]`. -/
def validateConfig (cfg : Config) : Except PErr Unit :=
  let invalid := invalidKeys cfg allowedParams
  if invalid ≠ [] then .error (.configError invalid allowedParams)
  else
    match cfgGet cfg "blur_length" (.vInt 15) with
    | .vInt bl =>
        if bl < 1 then .error (.rangeError "blur_length must be positive integer")
        else
          match cfgGet cfg "num_levels" (.vInt 4) with
          | .vInt n =>
              if n < 2 ∨ 256 < n then .error (.rangeError "num_levels must be integer 2-256")
              else .ok ()
          | _ => .error (.rangeError "num_levels must be integer 2-256")
    | _ => .error (.rangeError "blur_length must be positive integer")

/-- `BetweenLinesPipeline.render`: flatten RGBA against white, grayscale,
Sobel gradients and direction map (`arctan2` rotated by `pi/2`),
directional motion blur along the quantized directions, posterization,
and conversion back to RGB when the input was color. -/
def render (cfg : Config) (image : Img) : Except PErr Img :=
  let image := match image.mode with
    | .RGBA => Lib.pasteOnWhite image
    | _ => image
  let isColor := image.mode = .RGB
  let gray := Lib.convertL image
  let gx := Lib.gradX gray
  let gy := Lib.gradY gray
  let magnitude := Lib.magnitudeSq gx gy
  let directions := fun x y => Lib.atan2M (gy x y) (gx x y) + npPi / 2
  match asInt (mget cfg defaultConfig "blur_length"),
        asNum (mget cfg defaultConfig "edge_threshold") with
  | some blurLength, some edgeThreshold =>
    let blurred := directionalMotionBlur gray directions magnitude blurLength edgeThreshold
    match asInt (mget cfg defaultConfig "num_levels") with
    | some numLevels =>
        let posterized := posterizeL numLevels blurred
        .ok (if isColor then Lib.convertRGB posterized else posterized)
    | none => .error (.typeError "num_levels must be an integer")
  | _, _ => .error (.typeError "blur parameters must be numeric")

end BetweenLines


/-! ## Upscaler (`upscaler.py`) -/

/-- The upscaler state after `__init__` / `_check_models`: the chosen
model family and the super-resolution scales whose model files were found
on disk.  `_check_models` only ever records scales from the keys of
`MODELS[model_type]`, i.e. a subset of `{2, 3, 4}`. -/
structure Upscaler where
  modelType : String
  availableScales : List Nat

/-- `Upscaler.calculate_scale_factor`: `max(target_w / src_w, target_h / src_h)`,
with the float divisions modelled exactly over `ℚ`. -/
def calculateScaleFactor (inputSize targetSize : Nat × Nat) : ℚ :=
  max ((targetSize.1 : ℚ) / (inputSize.1 : ℚ)) ((targetSize.2 : ℚ) / (inputSize.2 : ℚ))

/-- Insertion into a descending-sorted list, used to model
`sorted(self.available_scales, reverse=True)`. -/
def insertDesc (x : Nat) : List Nat → List Nat
  | [] => [x]
  | y :: ys => if y ≤ x then x :: y :: ys else y :: insertDesc x ys

/-- `sorted(scales, reverse=True)`. -/
def sortDesc (l : List Nat) : List Nat := l.foldr insertDesc []

/-- The per-pass scale choice in `Upscaler._ai_upscale`: the largest
available scale `s` with `s <= remaining * 1.2`, falling back to
`min(available_scales)` when none qualifies (and `None` when no scales
are available).  The float literal `1.2` is modelled as `6/5`. -/
def bestScaleFor (scales : List Nat) (remaining : ℚ) : Option Nat :=
  match (sortDesc scales).find? (fun (s : Nat) => decide ((s : ℚ) ≤ remaining * (6 / 5))) with
  | some s => some s
  | none => scales.min?

/-- The `while current_scale < target_scale` loop of `Upscaler._ai_upscale`:
each pass applies the chosen super-resolution model and multiplies the
cumulative scale, breaking once the target scale is met.  The Python loop
has no fuel; `fuel` bounds the recursion and is chosen by the caller to
exceed the iteration count possible with the scales `_check_models`
records (each pass at least doubles `current_scale`). -/
def aiLoop (u : Upscaler) (targetScale : ℚ) : Nat → ℚ → Img → Img
  | 0, _, img => img
  | Nat.succ fuel, currentScale, img =>
    if currentScale < targetScale then
      let remaining := targetScale / currentScale
      match bestScaleFor u.availableScales remaining with
      | none => img
      | some s =>
          if s ∈ u.availableScales then
            let img' := Lib.srUpsample s img
            let currentScale' := currentScale * (s : ℚ)
            if targetScale ≤ currentScale' then img'
            else aiLoop u targetScale fuel currentScale' img'
          else img
    else img

/-- `Upscaler._ai_upscale`: convert to a 3-channel array (BGR), run the
iterative super-resolution loop, convert back to RGB. -/
def aiUpscale (u : Upscaler) (image : Img) (targetScale : ℚ) : Img :=
  let imgCv := Lib.convertRGB image
  let result := aiLoop u targetScale (targetScale.ceil.toNat + 2) 1 imgCv
  Lib.convertRGB result

/-- `Upscaler.upscale`: no-op when the required scale factor is `≤ 1.0`;
single-pass Lanczos resize to the target when the factor is below
`min_scale_for_ai` or no models are available; otherwise AI upscaling
followed by a corrective resize to the exact target dimensions. -/
def upscale (u : Upscaler) (image : Img) (targetSize : Nat × Nat)
    (minScaleForAI : ℚ) : Img :=
  let inputSize := (image.w, image.h)
  let scaleFactor := calculateScaleFactor inputSize targetSize
  if scaleFactor ≤ 1 then image
  else if scaleFactor < minScaleForAI ∨ u.availableScales = [] then
    Lib.resize image targetSize.1 targetSize.2
  else
    let result := aiUpscale u image scaleFactor
    if (result.w, result.h) ≠ targetSize then
      Lib.resize result targetSize.1 targetSize.2
    else result

/-- `upscale_image(image, target_size)`: the convenience wrapper calls
`upscale` with the default `min_scale_for_ai = 1.5` on the process-wide
upscaler instance. -/
def upscaleImage (u : Upscaler) (image : Img) (targetSize : Nat × Nat) : Img :=
  upscale u image targetSize (3 / 2)

/-! ## Pipeline registry and orchestrator (`service/pipelines/__init__.py`) -/

/-- The pipeline classes of the repository: the three registered styles
plus the screen-print family (`pop_screenprint.py`, `pop_coastal_poster.py`). -/
inductive PClass where
  | popPoster | pencilSketch | betweenLines
  | popScreenprint | popCoastal | popRebel | popCoastalPoster
deriving DecidableEq

/-- Whether a pipeline class belongs to the screen-print family. -/
def PClass.isScreenprint : PClass → Bool
  | .popScreenprint | .popCoastal | .popRebel | .popCoastalPoster => true
  | _ => false

/-- `PIPELINE_MAP`: the static mapping from style slug to pipeline class
(`PIPELINE_MAP.get(slug)` is `none` for any other slug). -/
def PIPELINE_MAP (slug : String) : Option PClass :=
  if slug = "pop-poster" then some .popPoster
  else if slug = "pencil-sketch" then some .pencilSketch
  else if slug = "between-the-lines" then some .betweenLines
  else none

/-- The `_validate_config` run by `RenderPipeline.__init__` for each
class.  The screen-print classes do not override the base class's no-op
validator. -/
def validateOf : PClass → Config → Except PErr Unit
  | .popPoster, cfg => PopPoster.validateConfig cfg
  | .pencilSketch, cfg => PencilSketch.validateConfig cfg
  | .betweenLines, cfg => BetweenLines.validateConfig cfg
  | _, _ => .ok ()

/-- The allow-list of each registered pipeline (the screen-print classes
inherit the base validator, which enforces none). -/
def allowedOf : PClass → List String
  | .popPoster => PopPoster.allowedParams
  | .pencilSketch => PencilSketch.allowedParams
  | .betweenLines => BetweenLines.allowedParams
  | _ => []

/-- `render` of each class.  The screen-print renders are never reached
through `PIPELINE_MAP` (their absence from the registry is itself one of
the checked properties); their multi-stage pixel pipeline is modelled
only as a deterministic RGB transform. -/
def renderOf : PClass → Config → Img → Except PErr Img
  | .popPoster, cfg, img => PopPoster.render cfg img
  | .pencilSketch, cfg, img => PencilSketch.render cfg img
  | .betweenLines, cfg, img => BetweenLines.render cfg img
  | _, _, img => .ok (Lib.convertRGB img)

/-- `RenderPipeline.__init__(algorithm_config)`: stores `algorithm_config
or {}` and runs `_validate_config` synchronously, before any image is
touched; an invalid configuration raises here.  The model returns the
stored configuration of the constructed instance. -/
def constructPipeline (pc : PClass) (algorithmConfig : Option Config) :
    Except PErr Config :=
  let cfg := algorithmConfig.getD []
  match validateOf pc cfg with
  | .ok () => .ok cfg
  | .error e => .error e

/-- The render row fetched by `process_render`'s SELECT: the source asset
key (with its decoded image), the style slug and stored
`algorithm_config`, and the size preset.  The decoding of the downloaded
asset bytes is modelled as the already-decoded `asset` image. -/
structure JobRow where
  renderId : String
  assetKey : String
  styleSlug : String
  algorithmConfig : Config
  widthInches : ℚ
  heightInches : ℚ
  dpi : ℚ
  asset : Img

/-- JPEG encoder parameters passed to `PIL.Image.save`.  `progressive`
defaults to off and `process_render` does not pass it. -/
structure JpegParams where
  quality : Nat
  optimize : Bool
  progressive : Bool
deriving DecidableEq

/-- The preview dimensions computed by `process_render`:
`preview_width = min(1200, output.width)` and
`preview_height = int(output.height * (preview_width / output.width))`. -/
def previewDimsOf (ow oh : Nat) : Nat × Nat :=
  let pw := min 1200 ow
  (pw, (pyInt ((oh : ℚ) * ((pw : ℚ) / (ow : ℚ)))).toNat)

/-- The JPEG parameters `process_render` saves the preview with:
`quality=85, optimize=True` and no `progressive` flag. -/
def previewJpegParams : JpegParams :=
  { quality := 85, optimize := true, progressive := false }

/-- The successful result of `process_render`: the returned dictionary's
status and artifact keys, plus the encoded artifacts' observable
parameters (dimensions, preview encoder settings) and pixel content. -/
structure RenderResult where
  status : String
  outputKey : String
  previewKey : String
  outputDims : Nat × Nat
  previewDims : Nat × Nat
  previewJpeg : JpegParams
  outputImg : Img
  previewImg : Img

/-- `process_render` (the deterministic dataflow of the orchestrator):
resolve the style slug in the registry, compute the target pixel size by
truncation of `inches * dpi`, upscale the source, construct the pipeline
with NO configuration overrides (`pipeline_class()`), render, resize to
the exact target if needed, and produce the TIFF and preview artifacts
under the deterministic keys.  Database status writes and uploads are
external effects; any raised error surfaces as `Except.error`, which the
orchestrator's exception handler turns into a `failed` status. -/
def processRender (env : Upscaler) (row : JobRow) : Except String RenderResult :=
  match PIPELINE_MAP row.styleSlug with
  | none => .error ("Unknown style: " ++ row.styleSlug)
  | some pipelineClass =>
    let targetWidth := (pyInt (row.widthInches * row.dpi)).toNat
    let targetHeight := (pyInt (row.heightInches * row.dpi)).toNat
    let targetSize := (targetWidth, targetHeight)
    let sourceImage := upscaleImage env row.asset targetSize
    match constructPipeline pipelineClass none with
    | .error _ => .error "pipeline construction failed"
    | .ok cfg =>
      match renderOf pipelineClass cfg sourceImage with
      | .error _ => .error "pipeline render failed"
      | .ok rendered =>
        let outputImage :=
          if (rendered.w, rendered.h) ≠ targetSize then
            Lib.resize rendered targetSize.1 targetSize.2
          else rendered
        let pdims := previewDimsOf outputImage.w outputImage.h
        let previewImage := Lib.convertRGB (Lib.resize outputImage pdims.1 pdims.2)
        .ok
          { status := "completed"
            outputKey := "renders/" ++ row.renderId ++ "/output.tiff"
            previewKey := "renders/" ++ row.renderId ++ "/preview.jpg"
            outputDims := (outputImage.w, outputImage.h)
            previewDims := pdims
            previewJpeg := previewJpegParams
            outputImg := outputImage
            previewImg := previewImage }

/-- The job status persisted by the orchestrator when the job finishes:
`completed` in the success path, `failed` in the exception handler (which
re-raises for the queue). -/
def jobFinalStatus (env : Upscaler) (row : JobRow) : String :=
  match processRender env row with
  | .ok _ => "completed"
  | .error _ => "failed"


/-! ## Auxiliary definitions for the statements -/

/-- Whether an `Except` is an error (`True` exactly when the modelled
Python call raised). -/
def isErr {α : Type} : Except PErr α → Bool
  | .ok _ => false
  | .error _ => true

/-- The value of a successful `Except`, with a fallback for the error
case (used only to name the result of a call proved successful). -/
def exOkD {α : Type} (e : Except PErr α) (d : α) : α :=
  match e with
  | .ok a => a
  | .error _ => d

/-- The type-and-range test `isinstance(v, int) and lo <= v <= hi`. -/
def intInRange (v : CVal) (lo hi : Int) : Bool :=
  match v with
  | .vInt n => decide (lo ≤ n) && decide (n ≤ hi)
  | _ => false

/-- The type-and-range test `isinstance(v, int) and lo <= v`. -/
def intAtLeast (v : CVal) (lo : Int) : Bool :=
  match v with
  | .vInt n => decide (lo ≤ n)
  | _ => false

/-- The type-and-range test `isinstance(v, (int, float)) and v > 0`. -/
def posNum (v : CVal) : Bool :=
  match v with
  | .vInt n => decide (0 < n)
  | .vFloat q => decide (0 < q)
  | .vStr _ => false

/-- A solid test image fixture. -/
def solidImg (m : PMode) (w h : Nat) : Img :=
  { mode := m, w := w, h := h, px := fun _ _ => { r := 10, g := 20, b := 30, a := 255 } }

/-- An upscaler whose `_check_models` found no model files on disk. -/
def noModels : Upscaler := { modelType := "espcn", availableScales := [] }

/-- A fetched render row for a portrait 5in x 15in @ 200 DPI pencil-sketch
job on a 4x4 source asset. -/
def jobPortrait : JobRow :=
  { renderId := "r1", assetKey := "a1", styleSlug := "pencil-sketch"
    algorithmConfig := [], widthInches := 5, heightInches := 15, dpi := 200
    asset := solidImg .RGB 4 4 }

/-- A fetched render row whose style slug is the screen-print style
`pop-coastal`, absent from the registry. -/
def jobCoastal : JobRow :=
  { renderId := "r2", assetKey := "a2", styleSlug := "pop-coastal"
    algorithmConfig := [], widthInches := 5, heightInches := 5, dpi := 100
    asset := solidImg .RGB 4 4 }

/-! ## Shape lemmas for the library models -/

theorem pasteOnWhite_w (img : Img) : (Lib.pasteOnWhite img).w = img.w := rfl

theorem pasteOnWhite_h (img : Img) : (Lib.pasteOnWhite img).h = img.h := rfl

theorem convertL_w (img : Img) : (Lib.convertL img).w = img.w := by
  unfold Lib.convertL; cases hm : img.mode <;> simp [hm]

theorem convertL_h (img : Img) : (Lib.convertL img).h = img.h := by
  unfold Lib.convertL; cases hm : img.mode <;> simp [hm]

theorem convertRGB_w (img : Img) : (Lib.convertRGB img).w = img.w := by
  unfold Lib.convertRGB; cases hm : img.mode <;> simp [hm]

theorem convertRGB_h (img : Img) : (Lib.convertRGB img).h = img.h := by
  unfold Lib.convertRGB; cases hm : img.mode <;> simp [hm]

theorem resize_w (img : Img) (tw th : Nat) : (Lib.resize img tw th).w = tw := rfl

theorem resize_h (img : Img) (tw th : Nat) : (Lib.resize img tw th).h = th := rfl

theorem gaussianFilter_w (s : ℚ) (img : Img) : (Lib.gaussianFilter s img).w = img.w := rfl

theorem gaussianFilter_h (s : ℚ) (img : Img) : (Lib.gaussianFilter s img).h = img.h := rfl

theorem kmeansQuantize_w (k s : Int) (img : Img) : (Lib.kmeansQuantize k s img).w = img.w := rfl

theorem kmeansQuantize_h (k s : Int) (img : Img) : (Lib.kmeansQuantize k s img).h = img.h := rfl

theorem unsharpMask_w (r p t : ℚ) (img : Img) : (Lib.unsharpMask r p t img).w = img.w := rfl

theorem unsharpMask_h (r p t : ℚ) (img : Img) : (Lib.unsharpMask r p t img).h = img.h := rfl

theorem contrastEnhance_w (f : ℚ) (img : Img) : (Lib.contrastEnhance f img).w = img.w := rfl

theorem contrastEnhance_h (f : ℚ) (img : Img) : (Lib.contrastEnhance f img).h = img.h := rfl

theorem directionalMotionBlur_w (g : Img) (d m : Nat → Nat → ℚ) (bl : Int) (et : ℚ) :
    (directionalMotionBlur g d m bl et).w = g.w := rfl

theorem directionalMotionBlur_h (g : Img) (d m : Nat → Nat → ℚ) (bl : Int) (et : ℚ) :
    (directionalMotionBlur g d m bl et).h = g.h := rfl

theorem posterizeL_w (n : Int) (img : Img) : (posterizeL n img).w = img.w := rfl

theorem posterizeL_h (n : Int) (img : Img) : (posterizeL n img).h = img.h := rfl

theorem normalizeRGB_w (img : Img) : (PopPoster.normalizeRGB img).w = img.w := by
  unfold PopPoster.normalizeRGB; cases hm : img.mode <;> simp [hm, pasteOnWhite_w, convertRGB_w]

theorem normalizeRGB_h (img : Img) : (PopPoster.normalizeRGB img).h = img.h := by
  unfold PopPoster.normalizeRGB; cases hm : img.mode <;> simp [hm, pasteOnWhite_h, convertRGB_h]


/-! ## Claim theorems -/

/-- C2: `process_render` constructs the pipeline with no configuration
overrides (`pipeline_class()`), so two fetched render rows that are
identical except for the style's stored `algorithm_config` produce the
same result: the stored `algorithm_config` never influences the output. -/
theorem c2_algorithm_config_noninterference (env : Upscaler) (row : JobRow)
    (cfg1 cfg2 : Config) :
    processRender env { row with algorithmConfig := cfg1 } =
      processRender env { row with algorithmConfig := cfg2 } := by
  obtain ⟨rid, ak, ss, ac, wi, hi, dp, asset⟩ := row
  rfl

/-- C7: for each registered pipeline, `render` is a pure function of the
input image and the configuration: two invocations on identical copies of
the same input under the same (valid) configuration yield identical
output images.  Randomness enters the embedding only through the seed
value carried in the configuration. -/
theorem c7_render_deterministic (pc : PClass) (cfg : Config) (img1 img2 : Img)
    (hpc : pc = .popPoster ∨ pc = .pencilSketch ∨ pc = .betweenLines)
    (hval : validateOf pc cfg = .ok ())
    (heq : img1 = img2) :
    renderOf pc cfg img1 = renderOf pc cfg img2 := by
  rw [heq]

/-- Witness for C7 at a concrete pipeline, configuration and image. -/
theorem c7_witness :
    renderOf .popPoster [] (solidImg .RGB 3 3) = renderOf .popPoster [] (solidImg .RGB 3 3) :=
  c7_render_deterministic .popPoster [] (solidImg .RGB 3 3) (solidImg .RGB 3 3)
    (Or.inl rfl) rfl rfl

/-- C8: when the required scale factor is at most 1 (target width and
height are both at most the source's), `Upscaler.upscale` returns the
original image object itself, not merely an image of equal size. -/
theorem c8_upscale_noop (u : Upscaler) (img : Img) (targetSize : Nat × Nat)
    (minScaleForAI : ℚ) (hw : 0 < img.w) (hh : 0 < img.h)
    (htw : targetSize.1 ≤ img.w) (hth : targetSize.2 ≤ img.h) :
    upscale u img targetSize minScaleForAI = img := by
  have h1 : (targetSize.1 : ℚ) / (img.w : ℚ) ≤ 1 := by
    rw [div_le_one (by exact_mod_cast hw)]
    exact_mod_cast htw
  have h2 : (targetSize.2 : ℚ) / (img.h : ℚ) ≤ 1 := by
    rw [div_le_one (by exact_mod_cast hh)]
    exact_mod_cast hth
  have hsf : calculateScaleFactor (img.w, img.h) targetSize ≤ 1 := max_le h1 h2
  unfold upscale
  rw [if_pos hsf]

/-- Witness for C8: a 100x100 source with a 50x50 target is returned
unchanged. -/
theorem c8_witness :
    upscale noModels (solidImg .RGB 100 100) (50, 50) (3 / 2) = solidImg .RGB 100 100 :=
  c8_upscale_noop noModels (solidImg .RGB 100 100) (50, 50) (3 / 2)
    (by decide) (by decide) (by decide) (by decide)


attribute [local semireducible] Rat.mul Rat.add Rat.sub Rat.inv in
/-- C1 counterexample: on the no-op code path the claim fails.  A 100x100
source with a 50x50 requested target takes the `scale_factor <= 1.0`
branch and `upscale` returns the original image, whose dimensions
(100, 100) are not the requested (50, 50). -/
theorem c1_counterexample :
    upscale noModels (solidImg .RGB 100 100) (50, 50) (3 / 2) = solidImg .RGB 100 100 ∧
    ((upscale noModels (solidImg .RGB 100 100) (50, 50) (3 / 2)).w,
      (upscale noModels (solidImg .RGB 100 100) (50, 50) (3 / 2)).h) ≠ (50, 50) := by
  constructor
  · rfl
  · decide

/-- C1 amended: whenever the required scale factor exceeds 1 (the target
strictly exceeds the source in some dimension), the image returned by
`Upscaler.upscale` has exactly the requested target dimensions on both
remaining code paths (classical Lanczos resampling and AI
super-resolution with its final corrective resize).  On the no-op path
(factor at most 1) the original image is returned instead. -/
theorem c1_upscale_exact_size (u : Upscaler) (img : Img) (targetSize : Nat × Nat)
    (minScaleForAI : ℚ)
    (hsf : 1 < calculateScaleFactor (img.w, img.h) targetSize) :
    ((upscale u img targetSize minScaleForAI).w,
      (upscale u img targetSize minScaleForAI).h) = targetSize := by
  unfold upscale
  rw [if_neg (not_le.2 hsf)]
  by_cases hc : calculateScaleFactor (img.w, img.h) targetSize < minScaleForAI ∨
      u.availableScales = []
  · rw [if_pos hc]
    rfl
  · rw [if_neg hc]
    by_cases hr : ((aiUpscale u img (calculateScaleFactor (img.w, img.h) targetSize)).w,
        (aiUpscale u img (calculateScaleFactor (img.w, img.h) targetSize)).h) ≠ targetSize
    · rw [if_pos hr]
      rfl
    · rw [if_neg hr]
      exact not_not.1 hr

/-- Witness for C1 (amended) on the classical path: a 100x100 source
upscaled to 120x120. -/
theorem c1_witness :
    ((upscale noModels (solidImg .RGB 100 100) (120, 120) (3 / 2)).w,
      (upscale noModels (solidImg .RGB 100 100) (120, 120) (3 / 2)).h) = (120, 120) :=
  c1_upscale_exact_size noModels (solidImg .RGB 100 100) (120, 120) (3 / 2) (by
    norm_num [calculateScaleFactor, solidImg])


attribute [local semireducible] Rat.mul Rat.add Rat.sub Rat.inv in
/-- C6 counterexample: the direction value `npPi/2` (the direction
computed for a pixel with gradient `(gx, gy) = (1, 0)`) satisfies both
the bin-0 mask and the bin-2 mask, so the bins are not pairwise disjoint
and a pixel is not assigned to exactly one bin.  Indeed the bin-0
wrap-around mask `(d >= -step/2) | (d < step/2)` is satisfied by every
direction value. -/
theorem c6_counterexample : binMask 0 (npPi / 2) ∧ binMask 2 (npPi / 2) := by
  constructor
  · exact Or.inl (by decide)
  · exact ⟨by decide, by decide⟩

/-- C6 amended: the bin-0 mask (the wrap-around special case) holds for
every direction value, so the 8 bin masks trivially cover the direction
range but are not pairwise disjoint; the remaining bins 1..7 are
pairwise disjoint among themselves. -/
theorem c6_bins_amended :
    (∀ d : ℚ, binMask 0 d) ∧
    (∀ (i j : Nat) (d : ℚ), 1 ≤ i → i < j → j ≤ 7 →
      binMask i d → binMask j d → False) := by
  constructor
  · intro d
    have hs : 0 < directionStep := by norm_num [directionStep, npPi]
    rcases le_or_lt (0 * directionStep - directionStep / 2) d with h | h
    · exact Or.inl h
    · exact Or.inr (by linarith)
  · intro i j d h1 h2 _h3 hbi hbj
    match i, h1 with
    | (m + 1), _ =>
      match j, h2 with
      | (n + 1), _ =>
        have hs : 0 < directionStep := by norm_num [directionStep, npPi]
        obtain ⟨_, hiu⟩ := hbi
        obtain ⟨hjl, _⟩ := hbj
        have hmn : (m : ℚ) + 1 ≤ (n : ℚ) := by
          have : m + 1 ≤ n := by omega
          exact_mod_cast this
        nlinarith [mul_le_mul_of_nonneg_right hmn hs.le]

/-- Witness for C6 (amended) at concrete bins and directions. -/
theorem c6_witness :
    binMask 0 0 ∧ (binMask 1 0 → binMask 2 0 → False) :=
  ⟨c6_bins_amended.1 0,
   fun h1 h2 => c6_bins_amended.2 1 2 0 (by norm_num) (by norm_num) (by norm_num) h1 h2⟩


/-- C9: constructing any of the three registered pipelines with a
configuration containing a key outside its allow-list raises the
construction-time validation error (a `ValueError`, the spec's
`ConfigValidationError`), whose payload lists exactly the invalid keys
together with the allowed set; validation runs before any image data is
touched (the validator takes no image). -/
theorem c9_unknown_param_rejected (pc : PClass) (cfg : Config) (key : String)
    (hpc : pc = .popPoster ∨ pc = .pencilSketch ∨ pc = .betweenLines)
    (hk : key ∈ keysOf cfg)
    (hbad : (allowedOf pc).contains key = false) :
    validateOf pc cfg =
      .error (.configError (invalidKeys cfg (allowedOf pc)) (allowedOf pc)) ∧
    key ∈ invalidKeys cfg (allowedOf pc) := by
  have hnm : key ∉ allowedOf pc := by simpa using hbad
  have hmem : key ∈ invalidKeys cfg (allowedOf pc) :=
    List.mem_filter.2 ⟨hk, by simp [hnm]⟩
  have hne : invalidKeys cfg (allowedOf pc) ≠ [] := List.ne_nil_of_mem hmem
  rcases hpc with rfl | rfl | rfl
  · refine ⟨?_, hmem⟩
    simp only [validateOf, allowedOf] at *
    simp only [PopPoster.validateConfig]
    rw [if_pos hne]
  · refine ⟨?_, hmem⟩
    simp only [validateOf, allowedOf] at *
    simp only [PencilSketch.validateConfig]
    rw [if_pos hne]
  · refine ⟨?_, hmem⟩
    simp only [validateOf, allowedOf] at *
    simp only [BetweenLines.validateConfig]
    rw [if_pos hne]

/-- Witness for C9: constructing `PopPosterPipeline` with the unknown key
`bogus` raises the validation error listing `bogus`. -/
theorem c9_witness :
    validateOf .popPoster [("bogus", CVal.vInt 1)] =
      .error (.configError (invalidKeys [("bogus", CVal.vInt 1)] (allowedOf .popPoster))
        (allowedOf .popPoster)) ∧
    "bogus" ∈ invalidKeys [("bogus", CVal.vInt 1)] (allowedOf .popPoster) :=
  c9_unknown_param_rejected .popPoster [("bogus", CVal.vInt 1)] "bogus"
    (Or.inl rfl) (by decide) (by decide)

/-- C3 counterexample: the claim's second half fails.  `canny_low` is an
allowed Pop Poster parameter with no validation: construction with
`{"canny_low": "x"}` succeeds, yet `render` raises at the Canny stage
because the threshold reaching the library call is not numeric — an
invalid configuration value that raises mid-render, not at
construction. -/
theorem c3_counterexample :
    PopPoster.validateConfig [("canny_low", CVal.vStr "x")] = .ok () ∧
    isErr (PopPoster.render [("canny_low", CVal.vStr "x")] (solidImg .RGB 4 4)) = true := by
  exact ⟨rfl, rfl⟩

/-- C3 amended: the validators enforce only the parameters with declared
ranges — Pop Poster `k` (int in [2,256]), Pencil Sketch `sigma` and
`contrast_factor` (positive numbers), Between The Lines `blur_length`
(int >= 1) and `num_levels` (int in [2,256]): an out-of-range or
wrongly-typed value for those raises at construction.  The remaining
allowed parameters are not validated, and an invalid value for one of
them (e.g. a string `canny_low`) constructs successfully and raises
mid-render. -/
theorem c3_validation_amended :
    (∀ (cfg : Config) (v : CVal), lookupCfg cfg "k" = some v →
      intInRange v 2 256 = false → isErr (PopPoster.validateConfig cfg) = true) ∧
    (∀ (cfg : Config) (v : CVal), lookupCfg cfg "sigma" = some v →
      posNum v = false → isErr (PencilSketch.validateConfig cfg) = true) ∧
    (∀ (cfg : Config) (v : CVal), lookupCfg cfg "contrast_factor" = some v →
      posNum v = false → isErr (PencilSketch.validateConfig cfg) = true) ∧
    (∀ (cfg : Config) (v : CVal), lookupCfg cfg "blur_length" = some v →
      intAtLeast v 1 = false → isErr (BetweenLines.validateConfig cfg) = true) ∧
    (∀ (cfg : Config) (v : CVal), lookupCfg cfg "num_levels" = some v →
      intInRange v 2 256 = false → isErr (BetweenLines.validateConfig cfg) = true) ∧
    (PopPoster.validateConfig [("canny_low", CVal.vStr "x")] = .ok () ∧
      ∀ img : Img, isErr (PopPoster.render [("canny_low", CVal.vStr "x")] img) = true) := by
  refine ⟨?_, ?_, ?_, ?_, ?_, rfl, fun img => rfl⟩
  · intro cfg v hv hbad
    have hget : cfgGet cfg "k" (.vInt 8) = v := by unfold cfgGet; rw [hv]
    simp only [PopPoster.validateConfig, hget]
    by_cases hinv : invalidKeys cfg PopPoster.allowedParams ≠ []
    · rw [if_pos hinv]; rfl
    · rw [if_neg hinv]
      match v, hbad with
      | .vInt n, hbad =>
        have hrange : n < 2 ∨ 256 < n := by
          simp only [intInRange, Bool.and_eq_false_iff, decide_eq_false_iff_not,
            not_le] at hbad
          omega
        simp [hrange, isErr]
      | .vFloat q, _ => rfl
      | .vStr t, _ => rfl
  · intro cfg v hv hbad
    have hget : cfgGet cfg "sigma" (.vInt 21) = v := by unfold cfgGet; rw [hv]
    simp only [PencilSketch.validateConfig, hget]
    by_cases hinv : invalidKeys cfg PencilSketch.allowedParams ≠ []
    · rw [if_pos hinv]; rfl
    · rw [if_neg hinv]
      match v, hbad with
      | .vInt n, hbad =>
        have hn : (n : ℚ) ≤ 0 := by
          simp only [posNum, decide_eq_false_iff_not, not_lt] at hbad
          exact_mod_cast hbad
        simp [asNum, hn, isErr]
      | .vFloat q, hbad =>
        have hq : q ≤ 0 := by
          simpa only [posNum, decide_eq_false_iff_not, not_lt] using hbad
        simp [asNum, hq, isErr]
      | .vStr t, _ => rfl
  · intro cfg v hv hbad
    have hget : cfgGet cfg "contrast_factor" (.vFloat (13 / 10)) = v := by
      unfold cfgGet; rw [hv]
    simp only [PencilSketch.validateConfig, hget]
    by_cases hinv : invalidKeys cfg PencilSketch.allowedParams ≠ []
    · rw [if_pos hinv]; rfl
    · rw [if_neg hinv]
      cases hs : asNum (cfgGet cfg "sigma" (.vInt 21)) with
      | none => simp [hs, isErr]
      | some sigma =>
        by_cases hsp : sigma ≤ 0
        · simp [hs, hsp, isErr]
        · match v, hbad with
          | .vInt n, hbad =>
            have hn : (n : ℚ) ≤ 0 := by
              simp only [posNum, decide_eq_false_iff_not, not_lt] at hbad
              exact_mod_cast hbad
            simp [hs, hsp, asNum, hn, isErr]
          | .vFloat q, hbad =>
            have hq : q ≤ 0 := by
              simpa only [posNum, decide_eq_false_iff_not, not_lt] using hbad
            simp [hs, hsp, asNum, hq, isErr]
          | .vStr t, _ => simp [hs, hsp, asNum, isErr]
  · intro cfg v hv hbad
    have hget : cfgGet cfg "blur_length" (.vInt 15) = v := by unfold cfgGet; rw [hv]
    simp only [BetweenLines.validateConfig, hget]
    by_cases hinv : invalidKeys cfg BetweenLines.allowedParams ≠ []
    · rw [if_pos hinv]; rfl
    · rw [if_neg hinv]
      match v, hbad with
      | .vInt n, hbad =>
        have hrange : n < 1 := by
          simp only [intAtLeast, decide_eq_false_iff_not, not_le] at hbad
          omega
        simp [hrange, isErr]
      | .vFloat q, _ => rfl
      | .vStr t, _ => rfl
  · intro cfg v hv hbad
    have hget : cfgGet cfg "num_levels" (.vInt 4) = v := by unfold cfgGet; rw [hv]
    simp only [BetweenLines.validateConfig, hget]
    by_cases hinv : invalidKeys cfg BetweenLines.allowedParams ≠ []
    · rw [if_pos hinv]; rfl
    · rw [if_neg hinv]
      cases hb : cfgGet cfg "blur_length" (.vInt 15) with
      | vInt bl =>
        by_cases hblp : bl < 1
        · simp [hb, hblp, isErr]
        · match v, hbad with
          | .vInt n, hbad =>
            have hrange : n < 2 ∨ 256 < n := by
              simp only [intInRange, Bool.and_eq_false_iff, decide_eq_false_iff_not,
                not_le] at hbad
              omega
            simp [hb, hblp, hrange, isErr]
          | .vFloat q, _ => simp [hb, hblp, isErr]
          | .vStr t, _ => simp [hb, hblp, isErr]
      | vFloat q => simp [hb, isErr]
      | vStr t => simp [hb, isErr]

/-- Witness for C3 (amended) at concrete out-of-range and mid-render
inputs. -/
theorem c3_witness :
    isErr (PopPoster.validateConfig [("k", CVal.vInt 1)]) = true ∧
    isErr (BetweenLines.validateConfig [("num_levels", CVal.vInt 300)]) = true ∧
    isErr (PopPoster.render [("canny_low", CVal.vStr "x")] (solidImg .L 2 2)) = true :=
  ⟨c3_validation_amended.1 [("k", CVal.vInt 1)] (CVal.vInt 1) (by decide) (by decide),
   c3_validation_amended.2.2.2.2.1 [("num_levels", CVal.vInt 300)] (CVal.vInt 300)
     (by decide) (by decide),
   c3_validation_amended.2.2.2.2.2.2 (solidImg .L 2 2)⟩


/-- C4: the static registry maps exactly the three slugs `pop-poster`,
`pencil-sketch` and `between-the-lines`; for a fetched render row with
any other style slug, `process_render` raises the unknown-style error and
the orchestrator's exception handler marks the job `failed`; and no slug
ever resolves to a screen-print pipeline class, so `PopScreenprintPipeline`,
`PopCoastalPipeline`, `PopRebelPipeline` and `PopCoastalPosterPipeline`
are never invoked by the orchestrator. -/
theorem c4_registry_closed :
    (∀ slug : String, (PIPELINE_MAP slug).isSome = true ↔
        slug = "pop-poster" ∨ slug = "pencil-sketch" ∨ slug = "between-the-lines") ∧
    (∀ (env : Upscaler) (row : JobRow),
        row.styleSlug ≠ "pop-poster" → row.styleSlug ≠ "pencil-sketch" →
        row.styleSlug ≠ "between-the-lines" →
        processRender env row = .error ("Unknown style: " ++ row.styleSlug) ∧
        jobFinalStatus env row = "failed") ∧
    (∀ (slug : String) (pc : PClass), PIPELINE_MAP slug = some pc →
        pc.isScreenprint = false) := by
  refine ⟨?_, ?_, ?_⟩
  · intro slug
    unfold PIPELINE_MAP
    split_ifs <;> simp_all
  · intro env row h1 h2 h3
    have hmap : PIPELINE_MAP row.styleSlug = none := by
      unfold PIPELINE_MAP
      rw [if_neg h1, if_neg h2, if_neg h3]
    constructor
    · unfold processRender
      rw [hmap]
    · unfold jobFinalStatus processRender
      rw [hmap]
  · intro slug pc h
    unfold PIPELINE_MAP at h
    split_ifs at h
    · injection h with h
      subst h
      rfl
    · injection h with h
      subst h
      rfl
    · injection h with h
      subst h
      rfl

/-- Witness for C4 at the screen-print slug `pop-coastal`. -/
theorem c4_witness :
    processRender noModels jobCoastal = .error ("Unknown style: " ++ jobCoastal.styleSlug) ∧
    jobFinalStatus noModels jobCoastal = "failed" :=
  c4_registry_closed.2.1 noModels jobCoastal (by decide) (by decide) (by decide)


/-- Dimension preservation of `PopPosterPipeline.render`. -/
theorem popPoster_render_dims (cfg : Config) (img out : Img)
    (h : PopPoster.render cfg img = .ok out) : out.w = img.w ∧ out.h = img.h := by
  unfold PopPoster.render at h
  dsimp only at h
  repeat split at h
  all_goals try exact Except.noConfusion h
  all_goals injection h with h
  all_goals subst h
  all_goals
    exact ⟨by simp [unsharpMask_w, kmeansQuantize_w, normalizeRGB_w],
           by simp [unsharpMask_h, kmeansQuantize_h, normalizeRGB_h]⟩

/-- Dimension preservation of `PencilSketchPipeline.render`. -/
theorem pencilSketch_render_dims (cfg : Config) (img out : Img)
    (h : PencilSketch.render cfg img = .ok out) : out.w = img.w ∧ out.h = img.h := by
  unfold PencilSketch.render at h
  dsimp only at h
  repeat split at h
  all_goals try exact Except.noConfusion h
  all_goals injection h with h
  all_goals subst h
  all_goals constructor
  all_goals cases himg : img.mode
  all_goals simp [himg, convertRGB_w, contrastEnhance_w, convertL_w, pasteOnWhite_w,
    convertRGB_h, contrastEnhance_h, convertL_h, pasteOnWhite_h]

/-- Dimension preservation of `BetweenLinesPipeline.render`. -/
theorem betweenLines_render_dims (cfg : Config) (img out : Img)
    (h : BetweenLines.render cfg img = .ok out) : out.w = img.w ∧ out.h = img.h := by
  unfold BetweenLines.render at h
  dsimp only at h
  repeat split at h
  all_goals try exact Except.noConfusion h
  all_goals injection h with h
  all_goals subst h
  all_goals constructor
  all_goals cases himg : img.mode
  all_goals simp [himg, convertRGB_w, posterizeL_w, directionalMotionBlur_w, convertL_w,
    pasteOnWhite_w, convertRGB_h, posterizeL_h, directionalMotionBlur_h, convertL_h,
    pasteOnWhite_h]

/-- C10: for every registered pipeline, every configuration accepted by
its validator and every input image, a successful `render` returns an
image with the same spatial dimensions as its input (none of the three
pipelines resizes). -/
theorem c10_shape_preservation (slug : String) (pc : PClass) (cfg : Config)
    (img out : Img)
    (hmap : PIPELINE_MAP slug = some pc)
    (hval : validateOf pc cfg = .ok ())
    (hrender : renderOf pc cfg img = .ok out) :
    out.w = img.w ∧ out.h = img.h := by
  unfold PIPELINE_MAP at hmap
  split_ifs at hmap
  all_goals injection hmap with hmap
  all_goals subst hmap
  · exact popPoster_render_dims cfg img out hrender
  · exact pencilSketch_render_dims cfg img out hrender
  · exact betweenLines_render_dims cfg img out hrender

attribute [local semireducible] Rat.mul Rat.add Rat.sub Rat.inv in
/-- Witness for C10 on the pencil-sketch pipeline at a 3x2 RGB image. -/
theorem c10_witness :
    (exOkD (renderOf .pencilSketch [] (solidImg .RGB 3 2)) (solidImg .RGB 3 2)).w =
      (solidImg .RGB 3 2).w ∧
    (exOkD (renderOf .pencilSketch [] (solidImg .RGB 3 2)) (solidImg .RGB 3 2)).h =
      (solidImg .RGB 3 2).h :=
  c10_shape_preservation "pencil-sketch" .pencilSketch [] (solidImg .RGB 3 2)
    (exOkD (renderOf .pencilSketch [] (solidImg .RGB 3 2)) (solidImg .RGB 3 2))
    rfl rfl rfl


attribute [local semireducible] Rat.mul Rat.add Rat.sub Rat.inv in
/-- C5 counterexample: a completed portrait render (target 1000x3000 from
a 5in x 15in preset at 200 DPI) gets a preview of 1000x3000 pixels — the
long edge (3000) far exceeds 1200, because `process_render` only bounds
the preview width (`min(1200, width)`) and scales the height
proportionally; and the preview JPEG is saved with `quality=85,
optimize=True` but without `progressive`. -/
theorem c5_counterexample :
    (processRender noModels jobPortrait).map
        (fun r => (r.previewDims, r.previewJpeg)) =
      .ok ((1000, 3000), { quality := 85, optimize := true, progressive := false }) ∧
    ¬ (max 1000 3000 ≤ 1200) := by
  constructor
  · rfl
  · decide

/-- C5 amended: the preview produced by `process_render` is a JPEG of
quality 85 with `optimize` but NOT `progressive`; its width is always at
most 1200 and, when the output is landscape or square (height at most
width), both edges are at most 1200; for portrait outputs the height (the
long edge) is unbounded. -/
theorem c5_preview_amended :
    (∀ ow oh : Nat, (previewDimsOf ow oh).1 ≤ 1200) ∧
    (∀ ow oh : Nat, oh ≤ ow → (previewDimsOf ow oh).2 ≤ 1200) ∧
    previewJpegParams.quality = 85 ∧
    previewJpegParams.optimize = true ∧
    previewJpegParams.progressive = false ∧
    (∀ (env : Upscaler) (row : JobRow) (r : RenderResult),
      processRender env row = .ok r →
      r.previewJpeg = previewJpegParams ∧ r.previewDims.1 ≤ 1200) := by
  refine ⟨?_, ?_, rfl, rfl, rfl, ?_⟩
  · intro ow oh
    exact min_le_left 1200 ow
  · intro ow oh hle
    unfold previewDimsOf
    dsimp only
    rcases Nat.eq_zero_or_pos ow with rfl | howpos
    · have hoh : oh = 0 := Nat.le_zero.1 hle
      subst hoh
      simp [pyInt]
    · have how : (0 : ℚ) < (ow : ℚ) := by exact_mod_cast howpos
      have h0 : (0 : ℚ) ≤ (oh : ℚ) * (((min 1200 ow : Nat) : ℚ) / (ow : ℚ)) := by positivity
      have hq : (oh : ℚ) * (((min 1200 ow : Nat) : ℚ) / (ow : ℚ)) ≤
          ((min 1200 ow : Nat) : ℚ) := by
        have hnum : (oh : ℚ) * ((min 1200 ow : Nat) : ℚ) ≤
            (ow : ℚ) * ((min 1200 ow : Nat) : ℚ) := by
          apply mul_le_mul_of_nonneg_right
          · exact_mod_cast hle
          · positivity
        rw [← mul_div_assoc, div_le_iff₀ how]
        calc (oh : ℚ) * ((min 1200 ow : Nat) : ℚ)
            ≤ (ow : ℚ) * ((min 1200 ow : Nat) : ℚ) := hnum
          _ = ((min 1200 ow : Nat) : ℚ) * (ow : ℚ) := mul_comm _ _
      have hfloor : pyInt ((oh : ℚ) * (((min 1200 ow : Nat) : ℚ) / (ow : ℚ))) ≤
          ((min 1200 ow : Nat) : Int) := by
        unfold pyInt
        rw [if_pos h0]
        calc ⌊(oh : ℚ) * (((min 1200 ow : Nat) : ℚ) / (ow : ℚ))⌋
            ≤ ⌊((min 1200 ow : Nat) : ℚ)⌋ := Int.floor_le_floor hq
          _ = ((min 1200 ow : Nat) : Int) := Int.floor_natCast _
      have htn : (pyInt ((oh : ℚ) * (((min 1200 ow : Nat) : ℚ) / (ow : ℚ)))).toNat ≤
          min 1200 ow := Int.toNat_le.2 hfloor
      exact le_trans htn (min_le_left 1200 ow)
  · intro env row r h
    unfold processRender at h
    dsimp only at h
    split at h
    all_goals try exact Except.noConfusion h
    all_goals try split at h
    all_goals try exact Except.noConfusion h
    all_goals try split at h
    all_goals try exact Except.noConfusion h
    all_goals injection h with h
    all_goals subst h
    all_goals exact ⟨rfl, min_le_left 1200 _⟩

/-- Witness for C5 (amended) at concrete output dimensions. -/
theorem c5_witness :
    (previewDimsOf 5000 100).1 ≤ 1200 ∧ (previewDimsOf 100 50).2 ≤ 1200 :=
  ⟨c5_preview_amended.1 5000 100, c5_preview_amended.2.1 100 50 (by norm_num)⟩

end PopRender
